import Mathlib

/-!
Verification of the expression pipeline of the `graph` repository
(`main.py` / `main_noannotate.py`): tokenizer → recursive-descent parser →
AST → tree-walking evaluator, with its named-function registry.

The embedding mirrors the Python source function by function:
* `tokenize` (with helpers `get_ident`, `get_num`) over `List Char`;
* `parse` over `List Token`, with its `while` loops split into the
  auxiliary recursions `parseLoopF` (the operator-fold loop of the
  `LPAREN` branch) and `parseArgsF` (the argument loop of the `LCURLY`
  branch);
* `eval_node` over the AST, with the list comprehension over call
  arguments embedded as `eval_list`.

Numbers are embedded as `ℚ` (every numeric literal of the language is an
exact decimal, and every claim checked here concerns exactly representable
values).  The transcendental operations of Python's `math` module
(`sqrt`, `sin`, `cos`, `tan`, `gamma`) and float `**` are abstracted into
a `MathOps` backend parameter; instantiating it at `ℝ` with the Mathlib
functions gives the idealised semantics of the registry.

Python raises exceptions; the embedding returns `Except Err`.  The error
constructors follow the spec's taxonomy: the `SyntaxError` raises of the
source become `LexError` / `UnexpectedTokenError` / `UnknownOperatorError`,
an out-of-range `tokens[0]` access in `parse` becomes
`UnexpectedEndOfInputError`, a failing `float()` conversion becomes
`NumberFormatError`, a missing dict key in the evaluator becomes
`UndefinedVariableError` / `UnknownFunctionError`, an `inp[0]` access on an
empty argument list becomes `ArgumentCountError`, and float division by
zero (which raises `ZeroDivisionError` in Python) becomes
`DivisionByZeroError`.  Recursions whose termination Python leaves to
runtime behaviour are made total with an explicit fuel argument; the
marker `Err.OutOfFuel` is an artifact of that totalisation and is never
produced when the fuel exceeds the input length (the top-level wrappers
always supply that much fuel).
-/

namespace Graph

/-- Token discriminants, mirroring the Python `TokenType` enum. -/
inductive TokenType where
  | LPAREN
  | RPAREN
  | LCURLY
  | RCURLY
  | NUMBER
  | IDENT
  | OPERATOR
deriving DecidableEq

/-- A lexical token: a discriminant plus the raw source substring,
mirroring the Python `Token` class. -/
structure Token where
  type : TokenType
  value : String
deriving DecidableEq

/-- The error taxonomy of the pipeline (spec §7), plus `OutOfFuel`, an
artifact of the fuel-indexed totalisation that never arises from the
top-level wrappers. -/
inductive Err where
  | LexError (c : Char)
  | UnexpectedTokenError (t : Token)
  | UnexpectedEndOfInputError
  | NumberFormatError (literal : String)
  | UndefinedVariableError (name : String)
  | UnknownFunctionError (name : String)
  | UnknownOperatorError (op : String)
  | ArgumentCountError (name : String) (expected got : ℕ)
  | DivisionByZeroError
  | OutOfFuel
deriving DecidableEq

/-- The identifier alphabet: the Python set `letters`. -/
def letters : List Char := "abcdefghijklmnopqrstuvwxyz".toList

/-- The numeric-literal alphabet: the Python set `numbers` (digits and the
dot). -/
def numbers : List Char := "0123456789.".toList

/-- The Python `get_ident`: strips the maximal run of lowercase letters
off the front of the input, returning the run and the rest.  (The source
would crash on an empty input; `tokenize` only ever calls it on an input
starting with a letter.) -/
def get_ident : List Char → List Char × List Char
  | [] => ([], [])
  | c :: rest =>
    if c ∈ letters then
      let p := get_ident rest
      (c :: p.1, p.2)
    else ([], c :: rest)

/-- The Python `get_num`: strips the maximal run of digit/dot characters
off the front of the input, returning the run (verbatim, unvalidated) and
the rest. -/
def get_num : List Char → List Char × List Char
  | [] => ([], [])
  | c :: rest =>
    if c ∈ numbers then
      let p := get_num rest
      (c :: p.1, p.2)
    else ([], c :: rest)

/-- The Python `tokenize` loop, fuel-indexed (each iteration consumes at
least one character, so fuel `length + 1` suffices).  Single characters
map to their tokens, a space is skipped producing nothing, letter runs
become `IDENT` tokens, digit/dot runs become `NUMBER` tokens (stored
verbatim), and any other character raises `LexError`, discarding all
tokens produced so far. -/
def tokenizeF (fuel : Nat) (code : List Char) : Except Err (List Token) :=
  match code with
  | [] => .ok []
  | char :: rest =>
    match fuel with
    | 0 => .error .OutOfFuel
    | fuel + 1 =>
      if char = '(' then (tokenizeF fuel rest).map (Token.mk .LPAREN "(" :: ·)
      else if char = ')' then (tokenizeF fuel rest).map (Token.mk .RPAREN ")" :: ·)
      else if char = '\x7b' then (tokenizeF fuel rest).map (Token.mk .LCURLY "\x7b" :: ·)
      else if char = '\x7d' then (tokenizeF fuel rest).map (Token.mk .RCURLY "\x7d" :: ·)
      else if char = '+' then (tokenizeF fuel rest).map (Token.mk .OPERATOR "+" :: ·)
      else if char = '-' then (tokenizeF fuel rest).map (Token.mk .OPERATOR "-" :: ·)
      else if char = '*' then (tokenizeF fuel rest).map (Token.mk .OPERATOR "*" :: ·)
      else if char = '/' then (tokenizeF fuel rest).map (Token.mk .OPERATOR "/" :: ·)
      else if char = '=' then (tokenizeF fuel rest).map (Token.mk .OPERATOR "=" :: ·)
      else if char = '^' then (tokenizeF fuel rest).map (Token.mk .OPERATOR "^" :: ·)
      else if char = ' ' then tokenizeF fuel rest
      else if char ∈ letters then
        let p := get_ident (char :: rest)
        (tokenizeF fuel p.2).map (Token.mk .IDENT (String.mk p.1) :: ·)
      else if char ∈ numbers then
        let p := get_num (char :: rest)
        (tokenizeF fuel p.2).map (Token.mk .NUMBER (String.mk p.1) :: ·)
      else .error (.LexError char)

/-- The Python `tokenize`, with enough fuel for its whole input. -/
def tokenize (code : String) : Except Err (List Token) :=
  tokenizeF (code.length + 1) code.toList

/-- One-step unfolding of `tokenizeF` on a nonempty input, stated
explicitly because it is rewritten with below (the branch structure is
that of the source's if/elif chain). -/
theorem tokenizeF_cons (fuel : Nat) (char : Char) (rest : List Char) :
    tokenizeF (fuel + 1) (char :: rest) =
      (if char = '(' then (tokenizeF fuel rest).map (Token.mk .LPAREN "(" :: ·)
      else if char = ')' then (tokenizeF fuel rest).map (Token.mk .RPAREN ")" :: ·)
      else if char = '\x7b' then (tokenizeF fuel rest).map (Token.mk .LCURLY "\x7b" :: ·)
      else if char = '\x7d' then (tokenizeF fuel rest).map (Token.mk .RCURLY "\x7d" :: ·)
      else if char = '+' then (tokenizeF fuel rest).map (Token.mk .OPERATOR "+" :: ·)
      else if char = '-' then (tokenizeF fuel rest).map (Token.mk .OPERATOR "-" :: ·)
      else if char = '*' then (tokenizeF fuel rest).map (Token.mk .OPERATOR "*" :: ·)
      else if char = '/' then (tokenizeF fuel rest).map (Token.mk .OPERATOR "/" :: ·)
      else if char = '=' then (tokenizeF fuel rest).map (Token.mk .OPERATOR "=" :: ·)
      else if char = '^' then (tokenizeF fuel rest).map (Token.mk .OPERATOR "^" :: ·)
      else if char = ' ' then tokenizeF fuel rest
      else if char ∈ letters then
        let p := get_ident (char :: rest)
        (tokenizeF fuel p.2).map (Token.mk .IDENT (String.mk p.1) :: ·)
      else if char ∈ numbers then
        let p := get_num (char :: rest)
        (tokenizeF fuel p.2).map (Token.mk .NUMBER (String.mk p.1) :: ·)
      else .error (.LexError char)) := rfl

/-- Numeric value of a digit character. -/
def digVal (c : Char) : ℕ := c.toNat - '0'.toNat

/-- Value of a digit run, most significant first. -/
def digitsToNat (l : List Char) : ℕ :=
  l.foldl (fun acc c => 10 * acc + digVal c) 0

/-- Python's `float()` conversion restricted to the digit/dot strings the
tokenizer can emit: such a string converts iff it has at most one `.` and
at least one digit; the value is the exact decimal it denotes.  Returns
`none` exactly when Python's `float()` raises `ValueError` (e.g. on
`"1.2.3"` or `"."`).  The value of `intpart.fracpart` is the exact
decimal `(intpart * 10 ^ k + fracpart) / 10 ^ k` where `k` is the length
of the fractional digit run. -/
def float_of_string (s : String) : Option ℚ :=
  let l := s.toList
  if decide (l.count '.' ≤ 1) && l.any (fun c => c != '.') && l.all (fun c => numbers.contains c) then
    let intPart := l.takeWhile (fun c => c ≠ '.')
    let fracPart := (l.dropWhile (fun c => c ≠ '.')).drop 1
    some (mkRat (digitsToNat (intPart ++ fracPart)) (10 ^ fracPart.length))
  else none

/-- AST nodes, mirroring the Python `Node` class and `NodeType` enum:
the payloads are a float for `NUMBER`, a name for `VARIABLE`, the
`(op, left, right)` triple for `EXPR`, and the `(fn_name, params)` pair
for `CALL`. -/
inductive Node where
  | NUMBER (v : ℚ)
  | VARIABLE (name : String)
  | EXPR (op : String) (left right : Node)
  | CALL (fn : String) (params : List Node)

mutual

/-- The Python `parse`, fuel-indexed.  `IDENT` and `NUMBER` consume one
token (`NUMBER` converting its literal, failing with `NumberFormatError`
when `float()` would raise); `LPAREN` parses a first operand and enters
the operator-fold loop; `LCURLY` reads the function name token and enters
the argument loop; any other leading token raises `UnexpectedTokenError`.
An out-of-range `tokens[0]` access of the source is
`UnexpectedEndOfInputError`. -/
def parseF (fuel : Nat) (tokens : List Token) : Except Err (List Token × Node) :=
  match fuel with
  | 0 => .error .OutOfFuel
  | fuel + 1 =>
    match tokens with
    | [] => .error .UnexpectedEndOfInputError
    | tok :: rest =>
      match tok.type with
      | .IDENT => .ok (rest, .VARIABLE tok.value)
      | .NUMBER =>
        match float_of_string tok.value with
        | some v => .ok (rest, .NUMBER v)
        | none => .error (.NumberFormatError tok.value)
      | .LPAREN =>
        match parseF fuel rest with
        | .error e => .error e
        | .ok (tokens2, val) => parseLoopF fuel tokens2 val
      | .LCURLY =>
        match rest with
        | [] => .error .UnexpectedEndOfInputError
        | nameTok :: rest2 => parseArgsF fuel rest2 nameTok.value []
      | _ => .error (.UnexpectedTokenError tok)
termination_by structural fuel

/-- The `while tok.type != RPAREN` loop of the `LPAREN` branch: fold each
operator token with the next operand into a left-leaning `EXPR` chain,
then consume the closing `RPAREN`.  The loop takes the operator string
from whatever token stands there (the source never checks it is an
`OPERATOR`). -/
def parseLoopF (fuel : Nat) (tokens : List Token) (val : Node) :
    Except Err (List Token × Node) :=
  match fuel with
  | 0 => .error .OutOfFuel
  | fuel + 1 =>
    match tokens with
    | [] => .error .UnexpectedEndOfInputError
    | tok :: rest =>
      if tok.type = .RPAREN then .ok (rest, val)
      else
        match parseF fuel rest with
        | .error e => .error e
        | .ok (tokens2, right) =>
          parseLoopF fuel tokens2 (.EXPR tok.value val right)
termination_by structural fuel

/-- The `while tokens[0].type != RCURLY` loop of the `LCURLY` branch:
collect argument sub-expressions until the closing `RCURLY`, then consume
it. -/
def parseArgsF (fuel : Nat) (tokens : List Token) (fn : String)
    (params : List Node) : Except Err (List Token × Node) :=
  match fuel with
  | 0 => .error .OutOfFuel
  | fuel + 1 =>
    match tokens with
    | [] => .error .UnexpectedEndOfInputError
    | tok :: rest =>
      if tok.type = .RCURLY then .ok (rest, .CALL fn params)
      else
        match parseF fuel (tok :: rest) with
        | .error e => .error e
        | .ok (tokens2, param) => parseArgsF fuel tokens2 fn (params ++ [param])
termination_by structural fuel

end

/-- The Python `parse`, with enough fuel for its whole input (every fuel
step consumes at least one token). -/
def parse (tokens : List Token) : Except Err (List Token × Node) :=
  parseF (tokens.length + 1) tokens

/-- The operations the pipeline takes from Python's `math` module
(`sqrt`, `sin`, `cos`, `tan`, `gamma`) together with float `**`
exponentiation, abstracted over the numeric carrier.  Instantiating at
`ℝ` with the corresponding Mathlib functions (`realOps`) gives the
idealised semantics of the source; evaluation theorems that do not touch
these operations are stated for every backend. -/
structure MathOps (α : Type) where
  sqrt : α → α
  sin : α → α
  cos : α → α
  tan : α → α
  gamma : α → α
  pow : α → α → α

/-- One registry entry: the Python lambdas each read `inp[0]` and apply a
unary operation.  On an empty argument sequence `inp[0]` raises an
out-of-range `IndexError`, which the spec (§4.3) surfaces as
`ArgumentCountError{name, expected: 1, got: 0}`; on a longer sequence the
elements after the first are ignored. -/
def applyUnary {α : Type} (name : String) (f : α → α) (inp : List α) :
    Except Err α :=
  match inp with
  | [] => .error (.ArgumentCountError name 1 0)
  | a :: _ => .ok (f a)

/-- The Python `functions` registry of `main_noannotate.py` (the full
program): `sqrt`, `sin`, `cos`, `tan`, `fact`, where `fact` computes
`math.gamma(inp[0]) * inp[0]`.  (The annotated prototype `main.py`
carries only the `sqrt` entry of this table.) -/
def functions {α : Type} [Mul α] (M : MathOps α) :
    List (String × (List α → Except Err α)) :=
  [("sqrt", applyUnary "sqrt" M.sqrt),
   ("sin", applyUnary "sin" M.sin),
   ("cos", applyUnary "cos" M.cos),
   ("tan", applyUnary "tan" M.tan),
   ("fact", applyUnary "fact" (fun a => M.gamma a * a))]

mutual

/-- The Python `eval_node` (its `variables` parameter is a reserved word
here, so it is named `vars`): numbers evaluate to their value; variable
references
look up the bindings dict (a missing key raises `KeyError`, the spec's
`UndefinedVariableError`); an `EXPR` node evaluates left then right and
dispatches on the operator string, where `/` with a zero divisor raises
`ZeroDivisionError` (float division by exactly `0.0` raises in Python)
and an operator outside `+ - * / ^` raises the `unknown operator`
`SyntaxError`; a `CALL` node checks membership in the registry, evaluates
its arguments left to right, and applies the registered function. -/
def eval_node (M : MathOps ℚ) (node : Node) (vars : List (String × ℚ)) :
    Except Err ℚ :=
  match node with
  | .NUMBER v => .ok v
  | .VARIABLE name =>
    match vars.lookup name with
    | some v => .ok v
    | none => .error (.UndefinedVariableError name)
  | .EXPR op l r =>
    match eval_node M l vars with
    | .error e => .error e
    | .ok left =>
      match eval_node M r vars with
      | .error e => .error e
      | .ok right =>
        if op = "+" then .ok (left + right)
        else if op = "-" then .ok (left - right)
        else if op = "*" then .ok (left * right)
        else if op = "/" then
          if right = 0 then .error .DivisionByZeroError
          else .ok (left / right)
        else if op = "^" then .ok (M.pow left right)
        else .error (.UnknownOperatorError op)
  | .CALL fn params =>
    match (functions M).lookup fn with
    | some f =>
      match eval_list M params vars with
      | .ok args => f args
      | .error e => .error e
    | none => .error (.UnknownFunctionError fn)

/-- The argument list comprehension of the `CALL` branch: evaluate each
parameter left to right, propagating the first failure. -/
def eval_list (M : MathOps ℚ) (l : List Node) (vars : List (String × ℚ)) :
    Except Err (List ℚ) :=
  match l with
  | [] => .ok []
  | p :: ps =>
    match eval_node M p vars with
    | .error e => .error e
    | .ok v =>
      match eval_list M ps vars with
      | .error e => .error e
      | .ok vs => .ok (v :: vs)

end

/-- The top-level pipeline of the program: tokenize the source, parse the
token sequence discarding the leftover tokens (as `(_, eq) =
parse(tokenize(src))` does), and evaluate the AST under the given
bindings. -/
def run_pipeline (M : MathOps ℚ) (source : String)
    (vars : List (String × ℚ)) : Except Err ℚ :=
  match tokenize source with
  | .error e => .error e
  | .ok ts =>
    match parse ts with
    | .error e => .error e
    | .ok (_, ast) => eval_node M ast vars

/-- An arbitrary computable instantiation of the math backend at `ℚ`,
used only to instantiate universally (over the backend) quantified
statements at concrete inputs; none of the evaluations performed with it
reach a backend operation. -/
def testOps : MathOps ℚ :=
  { sqrt := id, sin := id, cos := id, tan := id, gamma := id,
    pow := fun a _ => a }

/-- The idealised real-number semantics of Python's `math` module as used
by the registry: `math.sqrt`, `math.sin`, `math.cos`, `math.tan`,
`math.gamma` and float `**` become the Mathlib functions `Real.sqrt`,
`Real.sin`, `Real.cos`, `Real.tan`, `Real.Gamma` and `Real.rpow`. -/
noncomputable def realOps : MathOps ℝ :=
  { sqrt := Real.sqrt, sin := Real.sin, cos := Real.cos, tan := Real.tan,
    gamma := Real.Gamma, pow := fun a b => Real.rpow a b }

/-- C1: for the input `"(2 + 3 * 4)"`, evaluating the parsed AST under
empty bindings returns `20` (computed as `(2+3)*4`) and not `14`: the
parser folds the operators of one parenthesized group strictly left to
right into a left-leaning `EXPR` chain with no arithmetic precedence.
Stated for every math backend, since no registry function or `^` is
involved. -/
theorem c1_left_fold_no_precedence (M : MathOps ℚ) :
    run_pipeline M "(2 + 3 * 4)" [] = .ok 20 ∧
    run_pipeline M "(2 + 3 * 4)" [] ≠ .ok 14 ∧
    (tokenize "(2 + 3 * 4)").bind parse =
      .ok ([], .EXPR "*" (.EXPR "+" (.NUMBER 2) (.NUMBER 3)) (.NUMBER 4)) := by
  have h20 : run_pipeline M "(2 + 3 * 4)" [] = .ok 20 := by
    with_unfolding_all rfl
  refine ⟨h20, ?_, by with_unfolding_all rfl⟩
  rw [h20]
  intro hc
  have h : (20 : ℚ) = 14 := Except.ok.inj hc
  norm_num at h

/-- C2, counterexample: the input `"(1 = 2)"` tokenizes successfully
(`=` becomes an `OPERATOR` token) and parses successfully into
`EXPR "=" 1 2`, yet evaluating that AST fails with
`UnknownOperatorError{=}` — so the unknown-operator branch of the
evaluator is reachable from the tokenizer/parser pipeline, refuting the
claim as stated. -/
theorem c2_counterexample :
    tokenize "(1 = 2)" = .ok [Token.mk .LPAREN "(", Token.mk .NUMBER "1",
      Token.mk .OPERATOR "=", Token.mk .NUMBER "2", Token.mk .RPAREN ")"] ∧
    parse [Token.mk .LPAREN "(", Token.mk .NUMBER "1", Token.mk .OPERATOR "=",
      Token.mk .NUMBER "2", Token.mk .RPAREN ")"] =
      .ok ([], .EXPR "=" (.NUMBER 1) (.NUMBER 2)) ∧
    eval_node testOps (.EXPR "=" (.NUMBER 1) (.NUMBER 2)) [] =
      .error (.UnknownOperatorError "=") :=
  ⟨by with_unfolding_all rfl, by with_unfolding_all rfl,
   by with_unfolding_all rfl⟩

/-- C2, amended: evaluation of a successfully tokenized and parsed input
CAN fail with `UnknownOperatorError`: the tokenizer emits `=` as an
`OPERATOR` token, the parser folds it into a `EXPR` node like any other
operator, and the evaluator handles only `+ - * / ^`; for example
`"(1 = 2)"` fails with `UnknownOperatorError{=}` for every backend and
any bindings. -/
theorem c2_unknown_operator_reachable (M : MathOps ℚ)
    (vars : List (String × ℚ)) :
    run_pipeline M "(1 = 2)" vars = .error (.UnknownOperatorError "=") := by
  with_unfolding_all rfl

/-- C4: evaluating a `/` node fails with `DivisionByZeroError` whenever
the (successfully evaluated) divisor is exactly zero and the left operand
evaluates successfully, never returning a value; in particular the
pipeline on `"(1 / 0)"` fails with `DivisionByZeroError` under any
bindings and backend. -/
theorem c4_division_by_zero (M : MathOps ℚ) (l r : Node)
    (vars : List (String × ℚ)) (lv : ℚ)
    (hl : eval_node M l vars = .ok lv) (hr : eval_node M r vars = .ok 0) :
    eval_node M (.EXPR "/" l r) vars = .error .DivisionByZeroError ∧
    run_pipeline M "(1 / 0)" vars = .error .DivisionByZeroError := by
  refine ⟨?_, by with_unfolding_all rfl⟩
  simp [eval_node, hl, hr]

theorem c4_witness :
    eval_node testOps (.EXPR "/" (.NUMBER 1) (.NUMBER 0)) [] =
      .error .DivisionByZeroError ∧
    run_pipeline testOps "(1 / 0)" [] = .error .DivisionByZeroError :=
  c4_division_by_zero testOps (.NUMBER 1) (.NUMBER 0) [] 1 rfl rfl

/-- C8: a `NUMBER` token whose literal Python's `float()` rejects (such
as `"1.2.3"`, stored verbatim by the tokenizer) makes the parser fail
with `NumberFormatError{literal}`; the tokenizer itself accepts the
digit/dot run unvalidated. -/
theorem c8_number_format_error (s : String) (rest : List Token) (n : Nat)
    (h : float_of_string s = none) :
    parseF (n + 1) (Token.mk .NUMBER s :: rest) =
      .error (.NumberFormatError s) ∧
    tokenize "(1.2.3)" = .ok [Token.mk .LPAREN "(",
      Token.mk .NUMBER "1.2.3", Token.mk .RPAREN ")"] ∧
    (tokenize "(1.2.3)").bind parse = .error (.NumberFormatError "1.2.3") := by
  refine ⟨?_, by with_unfolding_all rfl, by with_unfolding_all rfl⟩
  simp [parseF, h]

theorem c8_witness :
    parseF 1 [Token.mk .NUMBER "1.2.3", Token.mk .RPAREN ")"] =
      .error (.NumberFormatError "1.2.3") ∧
    tokenize "(1.2.3)" = .ok [Token.mk .LPAREN "(",
      Token.mk .NUMBER "1.2.3", Token.mk .RPAREN ")"] ∧
    (tokenize "(1.2.3)").bind parse = .error (.NumberFormatError "1.2.3") :=
  c8_number_format_error "1.2.3" [Token.mk .RPAREN ")"] 0 rfl

/-- C9: the malformed input `"(1+)"` tokenizes, and parsing fails with
the typed error `UnexpectedTokenError` on the `RPAREN` standing where the
dangling operator's right operand should be — not with the
out-of-range-access conversion `UnexpectedEndOfInputError`, nor with the
fuel marker. -/
theorem c9_dangling_operator_typed_error :
    tokenize "(1+)" = .ok [Token.mk .LPAREN "(", Token.mk .NUMBER "1",
      Token.mk .OPERATOR "+", Token.mk .RPAREN ")"] ∧
    parse [Token.mk .LPAREN "(", Token.mk .NUMBER "1",
      Token.mk .OPERATOR "+", Token.mk .RPAREN ")"] =
      .error (.UnexpectedTokenError (Token.mk .RPAREN ")")) ∧
    (tokenize "(1+)").bind parse =
      .error (.UnexpectedTokenError (Token.mk .RPAREN ")")) :=
  ⟨by with_unfolding_all rfl, by with_unfolding_all rfl,
   by with_unfolding_all rfl⟩

/-- C3: for every registered function name, evaluating a `CALL` node with
an empty argument sequence fails with
`ArgumentCountError{name, expected: 1, got: 0}` (the spec's surfacing of
the `inp[0]` out-of-range access), for any backend and bindings. -/
theorem c3_zero_args_argument_count_error (M : MathOps ℚ) (name : String)
    (vars : List (String × ℚ)) (h : name ∈ (functions M).map Prod.fst) :
    eval_node M (.CALL name []) vars =
      .error (.ArgumentCountError name 1 0) := by
  simp [functions] at h
  rcases h with h | h | h | h | h <;> subst h <;> with_unfolding_all rfl

theorem c3_witness :
    eval_node testOps (.CALL "fact" []) [] =
      .error (.ArgumentCountError "fact" 1 0) :=
  c3_zero_args_argument_count_error testOps "fact" [] (by decide)

/-- C7: every registered function reads only the first evaluated
argument: a `CALL` of a registered name with arguments `p :: ps`
evaluates to the same result as the `CALL` with the single argument `p`,
provided the extra arguments `ps` all evaluate successfully — they are
silently ignored, not rejected. -/
theorem c7_extra_args_ignored (M : MathOps ℚ) (name : String) (p : Node)
    (ps : List Node) (vars : List (String × ℚ)) (vs : List ℚ)
    (hname : name ∈ (functions M).map Prod.fst)
    (hps : eval_list M ps vars = .ok vs) :
    eval_node M (.CALL name (p :: ps)) vars =
      eval_node M (.CALL name [p]) vars := by
  simp [functions] at hname
  rcases hname with h | h | h | h | h <;> subst h <;>
    cases hp : eval_node M p vars <;>
      simp only [eval_node, eval_list, hp, hps] <;>
      with_unfolding_all rfl

theorem c7_witness :
    eval_node testOps (.CALL "sqrt" [.NUMBER 2, .NUMBER 3]) [] =
      eval_node testOps (.CALL "sqrt" [.NUMBER 2]) [] :=
  c7_extra_args_ignored testOps "sqrt" (.NUMBER 2) [.NUMBER 3] [] [3]
    (by decide) rfl

/-- C6, counterexample: the tab character is whitespace, yet the
tokenizer does not skip it — `tokenize "\t"` fails with `LexError`
(only the space character `' '` is skipped), refuting "skips every
whitespace character". -/
theorem c6_counterexample :
    Char.isWhitespace '\t' = true ∧
    tokenize "\t" = .error (.LexError '\t') :=
  ⟨rfl, rfl⟩

/-- C6, amended: the tokenizer skips every space character `' '` without
producing a token (the only whitespace it skips), and any character that
is not a recognized single-character token, the space, a lowercase ASCII
letter, or a digit/dot fails with `LexError{char}` immediately — the
error return carries no partial token list. -/
theorem c6_space_skipped_and_lex_error (c : Char) (cs : List Char)
    (hs : c ∉ ['(', ')', '\x7b', '\x7d', '+', '-', '*', '/', '=', '^', ' '])
    (hl : c ∉ letters) (hn : c ∉ numbers) :
    (∀ n, tokenizeF (n + 1) (' ' :: cs) = tokenizeF n cs) ∧
    (∀ n, tokenizeF (n + 1) (c :: cs) = .error (.LexError c)) ∧
    tokenize (String.mk (c :: cs)) = .error (.LexError c) := by
  simp only [List.mem_cons, List.not_mem_nil, or_false, not_or] at hs
  obtain ⟨h1, h2, h3, h4, h5, h6, h7, h8, h9, h10, h11⟩ := hs
  have herr : ∀ n, tokenizeF (n + 1) (c :: cs) = .error (.LexError c) := by
    intro n
    rw [tokenizeF_cons, if_neg h1, if_neg h2, if_neg h3, if_neg h4, if_neg h5,
      if_neg h6, if_neg h7, if_neg h8, if_neg h9, if_neg h10, if_neg h11,
      if_neg hl, if_neg hn]
  refine ⟨fun n => rfl, herr, ?_⟩
  have hu : tokenize (String.mk (c :: cs)) =
      tokenizeF (cs.length + 1 + 1) (c :: cs) := rfl
  rw [hu]
  exact herr (cs.length + 1)

theorem c6_witness :
    tokenizeF 3 (' ' :: ['1']) = tokenizeF 2 ['1'] ∧
    tokenizeF 3 ('#' :: ['1']) = .error (.LexError '#') ∧
    tokenize (String.mk ('#' :: ['1'])) = .error (.LexError '#') := by
  have h := c6_space_skipped_and_lex_error '#' ['1'] (by decide) (by decide)
    (by decide)
  exact ⟨h.1 2, h.2.1 2, h.2.2⟩

/-- C5: the registry under the idealised real semantics of Python's
`math` module has exactly the five entries `sqrt`, `sin`, `cos`, `tan`,
`fact`; on an argument sequence starting with `a` they compute `√a`,
`sin a`, `cos a`, `tan a`, and `a * Γ a` (the source computes
`math.gamma(inp[0]) * inp[0]`); and away from `a = 0` (where `math.gamma`
raises on the pole) `a * Γ a` agrees with `Γ (a + 1)`. -/
theorem c5_registry_contents :
    ((functions realOps).map Prod.fst = ["sqrt", "sin", "cos", "tan", "fact"]) ∧
    (∀ a : ℝ,
      ((functions realOps).lookup "sqrt").map (fun f => f [a]) =
        some (.ok (Real.sqrt a)) ∧
      ((functions realOps).lookup "sin").map (fun f => f [a]) =
        some (.ok (Real.sin a)) ∧
      ((functions realOps).lookup "cos").map (fun f => f [a]) =
        some (.ok (Real.cos a)) ∧
      ((functions realOps).lookup "tan").map (fun f => f [a]) =
        some (.ok (Real.tan a)) ∧
      ((functions realOps).lookup "fact").map (fun f => f [a]) =
        some (.ok (a * Real.Gamma a))) ∧
    (∀ a : ℝ, a ≠ 0 → a * Real.Gamma a = Real.Gamma (a + 1)) := by
  refine ⟨rfl, ?_, ?_⟩
  · intro a
    refine ⟨rfl, rfl, rfl, rfl, ?_⟩
    rw [mul_comm a (Real.Gamma a)]
    rfl
  · intro a ha
    exact (Real.Gamma_add_one ha).symm

theorem c5_witness :
    ((functions realOps).lookup "sqrt").map (fun f => f [(4 : ℝ)]) =
      some (.ok (Real.sqrt 4)) ∧
    (1 : ℝ) * Real.Gamma 1 = Real.Gamma (1 + 1) :=
  ⟨(c5_registry_contents.2.1 4).1, c5_registry_contents.2.2 1 one_ne_zero⟩

/-- Every successful `parseF` / `parseLoopF` / `parseArgsF` call returns
a strict suffix of its input token sequence: the head token is always
consumed and tokens are never reordered, duplicated or invented.  Proved
for all fuel values by induction on the fuel. -/
theorem parseF_strict_suffix (n : Nat) :
    (∀ tokens rest node, parseF n tokens = .ok (rest, node) →
      rest.length < tokens.length ∧ rest.IsSuffix tokens) ∧
    (∀ tokens val rest node, parseLoopF n tokens val = .ok (rest, node) →
      rest.length < tokens.length ∧ rest.IsSuffix tokens) ∧
    (∀ tokens fn ps rest node, parseArgsF n tokens fn ps = .ok (rest, node) →
      rest.length < tokens.length ∧ rest.IsSuffix tokens) := by
  induction n with
  | zero =>
    refine ⟨?_, ?_, ?_⟩ <;> intro tokens <;> intros <;>
      simp [parseF, parseLoopF, parseArgsF] at *
  | succ n ih =>
    obtain ⟨ihP, ihL, ihA⟩ := ih
    refine ⟨?_, ?_, ?_⟩
    · intro tokens rest node h
      match tokens with
      | [] => simp [parseF] at h
      | tok :: rest' =>
        obtain ⟨ty, val⟩ := tok
        cases ty <;> simp only [parseF] at h
        case IDENT =>
          obtain ⟨h1, _⟩ := Prod.mk.injEq .. ▸ Except.ok.inj h
          subst h1
          exact ⟨Nat.lt_succ_self _, List.suffix_cons _ _⟩
        case NUMBER =>
          cases hf : float_of_string val <;> rw [hf] at h <;>
            simp only [] at h
          case none => exact absurd h (by simp)
          case some v =>
            obtain ⟨h1, _⟩ := Prod.mk.injEq .. ▸ Except.ok.inj h
            subst h1
            exact ⟨Nat.lt_succ_self _, List.suffix_cons _ _⟩
        case LPAREN =>
          cases hp : parseF n rest' <;> rw [hp] at h
          case error => exact absurd h (by simp)
          case ok pr =>
            obtain ⟨t2, v⟩ := pr
            have h1 := ihP rest' t2 v hp
            have h2 := ihL t2 v rest node h
            exact ⟨h2.1.trans (h1.1.trans (Nat.lt_succ_self _)),
              (h2.2.trans h1.2).trans (List.suffix_cons _ _)⟩
        case LCURLY =>
          match rest' with
          | [] => exact absurd h (by simp)
          | nameTok :: rest2 =>
            have h1 := ihA rest2 nameTok.value [] rest node h
            refine ⟨?_, (h1.2.trans (List.suffix_cons _ _)).trans
              (List.suffix_cons _ _)⟩
            calc rest.length < rest2.length := h1.1
              _ < rest2.length + 1 + 1 := by omega
        case RPAREN => exact absurd h (by simp)
        case RCURLY => exact absurd h (by simp)
        case OPERATOR => exact absurd h (by simp)
    · intro tokens val rest node h
      match tokens with
      | [] => simp [parseLoopF] at h
      | tok :: rest' =>
        by_cases hr : tok.type = .RPAREN
        · rw [parseLoopF, if_pos hr] at h
          obtain ⟨h1, _⟩ := Prod.mk.injEq .. ▸ Except.ok.inj h
          subst h1
          exact ⟨Nat.lt_succ_self _, List.suffix_cons _ _⟩
        · rw [parseLoopF, if_neg hr] at h
          cases hp : parseF n rest' with
          | error e => rw [hp] at h; exact absurd h (by simp)
          | ok pr =>
            rw [hp] at h
            obtain ⟨t2, right⟩ := pr
            have h1 := ihP rest' t2 right hp
            have h2 := ihL t2 (.EXPR tok.value val right) rest node h
            exact ⟨h2.1.trans (h1.1.trans (Nat.lt_succ_self _)),
              (h2.2.trans h1.2).trans (List.suffix_cons _ _)⟩
    · intro tokens fn ps rest node h
      match tokens with
      | [] => simp [parseArgsF] at h
      | tok :: rest' =>
        by_cases hr : tok.type = .RCURLY
        · rw [parseArgsF, if_pos hr] at h
          obtain ⟨h1, _⟩ := Prod.mk.injEq .. ▸ Except.ok.inj h
          subst h1
          exact ⟨Nat.lt_succ_self _, List.suffix_cons _ _⟩
        · rw [parseArgsF, if_neg hr] at h
          cases hp : parseF n (tok :: rest') with
          | error e => rw [hp] at h; exact absurd h (by simp)
          | ok pr =>
            rw [hp] at h
            obtain ⟨t2, param⟩ := pr
            have h1 := ihP (tok :: rest') t2 param hp
            have h2 := ihA t2 fn (ps ++ [param]) rest node h
            exact ⟨h2.1.trans h1.1, h2.2.trans h1.2⟩

/-- C10: whenever `parse` succeeds, the remaining-token sequence it
returns is a strict suffix of the input: at least the head token is
consumed, and tokens are never reordered, duplicated or invented, which
is why the recursive descent and the operator/argument loops always make
progress. -/
theorem c10_parse_returns_strict_suffix (tokens rest : List Token)
    (node : Node) (h : parse tokens = .ok (rest, node)) :
    rest.length < tokens.length ∧ rest.IsSuffix tokens :=
  (parseF_strict_suffix (tokens.length + 1)).1 tokens rest node h

theorem c10_witness :
    ([] : List Token).length < [Token.mk .NUMBER "1"].length ∧
    ([] : List Token).IsSuffix [Token.mk .NUMBER "1"] :=
  c10_parse_returns_strict_suffix [Token.mk .NUMBER "1"] [] (.NUMBER 1)
    (by with_unfolding_all rfl)

end Graph
